import Mathlib

/-!
Verification of the article parse-and-read repository (src/lib/parseArticle.js)
against its natural-language specification.

The JavaScript source is shallowly embedded: the fetch orchestration, browser
challenge loop, embed detection and content reconciliation of
src/lib/parseArticle.js are translated into executable Lean definitions.
External collaborators (network, DOM query results, browser driver) are
passed in as explicit data (oracle structures holding the values the code
would read from them), and the repository logic that consumes them is
translated line by line.
-/

set_option maxRecDepth 8192

namespace ArticleParse

/-- Substring test on character lists: `pat` occurs in the suffix starting at
each position. Structural recursion so that concrete instances evaluate. -/
def strContainsAux (pat : List Char) : List Char → Bool
  | [] => pat.isEmpty
  | c :: rest => pat.isPrefixOf (c :: rest) || strContainsAux pat rest

/-- Models JavaScript `s.includes(pat)`: true when `pat` occurs as a
substring of `s`. -/
def strContains (s pat : String) : Bool :=
  strContainsAux pat.data s.data

/-- Models JavaScript `s.toLowerCase()` (ASCII case folding, which is all the
source compares). -/
def jsToLower (s : String) : String :=
  String.mk (s.data.map Char.toLower)

/-- Models JavaScript `s.substring(0, n)`. -/
def jsSubstring (s : String) (n : Nat) : String :=
  String.mk (s.data.take n)

/-- Splitter on character lists with fuel (the fuel is always at least the
list length at every call site, so the fuel branch is never reached for a
non-empty separator). Models JavaScript `String.prototype.split` for a
non-empty separator. -/
def splitOnFuel (sep : List Char) : Nat → List Char → List Char → List (List Char)
  | _, [], acc => [acc.reverse]
  | 0, s, acc => [acc.reverse ++ s]
  | fuel + 1, c :: rest, acc =>
    if sep.isPrefixOf (c :: rest) then
      acc.reverse :: splitOnFuel sep fuel ((c :: rest).drop sep.length) []
    else
      splitOnFuel sep fuel rest (c :: acc)

/-- Models JavaScript `s.split(sep)` for a non-empty separator. -/
def jsSplit (s sep : String) : List String :=
  (splitOnFuel sep.data s.data.length s.data []).map String.mk

/-- A JavaScript `Error` value as thrown by the fetch path:
`statusCode` is the extra field set by `fetchWithHeaders` (absent on other
errors), `message` the error message. -/
structure JsError where
  statusCode : Option Nat := none
  message : String
deriving DecidableEq, Repr

/-- The parsed URL parts the fetch phase reads (`new URL(url).hostname`). -/
structure UrlParts where
  hostname : String
deriving DecidableEq, Repr

/-- Domain list of `requiresBrowserRendering` (parseArticle.js lines 442-446). -/
def jsRequiredDomains : List String := ["medium.com", "substack.com", "dev.to"]

/-- parseArticle.js lines 440-449: hostname membership test for
JavaScript-requiring domains. -/
def requiresBrowserRendering (u : UrlParts) : Bool :=
  let hostname := jsToLower u.hostname
  jsRequiredDomains.any (fun domain => strContains hostname domain)

/-- parseArticle.js lines 474-478: classification of a plain-fetch failure as
blocked. -/
def isBlocked (e : JsError) : Bool :=
  e.statusCode == some 403 || e.statusCode == some 500 ||
  strContains e.message "Forbidden" || strContains e.message "403" ||
  strContains e.message "500"

/-- parseArticle.js lines 494-497: the two `AutomationUnavailable` messages
(serverless environment vs Puppeteer not installed). -/
def automationUnavailableMessage (serverless : Bool) (e : JsError) : String :=
  if serverless then
    "Failed to fetch URL: " ++ e.message ++ ". This site blocked automated requests and requires browser automation, which is not available in serverless environments like Netlify Functions. Please use the local server (npm start) instead, or use a different article URL."
  else
    "Failed to fetch URL: " ++ e.message ++ ". This site blocked automated requests and requires browser automation. Install Puppeteer with: npm install puppeteer"

/-- Error taxonomy of the fetch phase of `parseArticle`
(spec section 7; parseArticle.js lines 472-502). -/
inductive FetchError where
  /-- non-blocked plain-fetch failure re-raised unchanged (line 501) -/
  | fetchFailed (orig : JsError)
  /-- escalation itself hit a 500 pattern (lines 487-489) -/
  | likelyAntiBot (orig : JsError)
  /-- escalation failed with any other error (line 490) -/
  | browserAutomationFailed (puppeteerErr orig : JsError)
  /-- blocked with no escalation path (lines 492-498) -/
  | automationUnavailable (serverless : Bool) (message : String)
deriving DecidableEq, Repr

/-- The environment the fetch phase of `parseArticle` consumes: the outcome
of the (single) plain fetch, whether Puppeteer loaded at module init, whether
the module detected a serverless environment, and the outcome of the (single)
browser render when invoked. -/
structure FetchOracle where
  plain : Except JsError String
  puppeteerAvailable : Bool
  isServerless : Bool
  puppeteerResult : Except JsError String
deriving Repr

/-- Observable outcome of the fetch phase: the HTML or the error, and how
often each strategy ran. -/
structure FetchPhase where
  result : Except FetchError String
  plainCalls : Nat
  puppeteerCalls : Nat
deriving Repr

/-- parseArticle.js lines 466-503: the fetch phase of `parseArticle`.
`needsBrowser` mirrors line 467, which computes `requiresBrowserRendering`
but never reads the result. -/
def fetchArticleHtml (url : UrlParts) (o : FetchOracle) : FetchPhase :=
  let needsBrowser := requiresBrowserRendering url
  match o.plain with
  | .ok html => { result := .ok html, plainCalls := 1, puppeteerCalls := 0 }
  | .error e =>
    if isBlocked e && o.puppeteerAvailable then
      match o.puppeteerResult with
      | .ok html => { result := .ok html, plainCalls := 1, puppeteerCalls := 1 }
      | .error pe =>
        if strContains pe.message "500" || strContains pe.message "HTTP 500" then
          { result := .error (.likelyAntiBot e), plainCalls := 1, puppeteerCalls := 1 }
        else
          { result := .error (.browserAutomationFailed pe e), plainCalls := 1, puppeteerCalls := 1 }
    else if isBlocked e && !o.puppeteerAvailable then
      if o.isServerless then
        { result := .error (.automationUnavailable true (automationUnavailableMessage true e)),
          plainCalls := 1, puppeteerCalls := 0 }
      else
        { result := .error (.automationUnavailable false (automationUnavailableMessage false e)),
          plainCalls := 1, puppeteerCalls := 0 }
    else
      { result := .error (.fetchFailed e), plainCalls := 1, puppeteerCalls := 0 }

end ArticleParse

namespace ArticleParse

/-- C2: a blocked (403) plain-fetch failure with automation available
escalates to browser rendering exactly once and returns its HTML on success;
the plain strategy runs exactly once and escalation never runs twice. -/
theorem fetch_escalation_once (u : UrlParts) (o : FetchOracle) (e : JsError)
    (hp : o.plain = .error e) (hs : e.statusCode = some 403)
    (hav : o.puppeteerAvailable = true) :
    (fetchArticleHtml u o).puppeteerCalls = 1 ∧
    (fetchArticleHtml u o).plainCalls = 1 ∧
    (∀ html, o.puppeteerResult = .ok html → (fetchArticleHtml u o).result = .ok html) ∧
    (∀ u' o', (fetchArticleHtml u' o').puppeteerCalls ≤ 1 ∧
              (fetchArticleHtml u' o').plainCalls = 1) := by
  have hb : isBlocked e = true := by
    simp [isBlocked, hs]
  refine ⟨?_, ?_, ?_, ?_⟩
  · simp only [fetchArticleHtml, hp, hb, hav, Bool.and_self]
    cases hres : o.puppeteerResult with
    | ok h => simp [hres]
    | error pe => simp [hres]; split <;> simp
  · simp only [fetchArticleHtml, hp, hb, hav, Bool.and_self]
    cases hres : o.puppeteerResult with
    | ok h => simp [hres]
    | error pe => simp [hres]; split <;> simp
  · intro html hres
    simp [fetchArticleHtml, hp, hb, hav, hres]
  · intro u' o'
    obtain ⟨pl, pav, srv, pres⟩ := o'
    rcases pl with html | e' <;> rcases pres with h | pe <;>
      simp only [fetchArticleHtml] <;> (repeat' split) <;> simp

/-- Witness for `fetch_escalation_once` at a concrete oracle. -/
theorem fetch_escalation_once_witness :
    (let o : FetchOracle :=
      { plain := .error { statusCode := some 403, message := "Failed to fetch URL: Forbidden" },
        puppeteerAvailable := true, isServerless := false,
        puppeteerResult := .ok "<html>rendered</html>" }
     (fetchArticleHtml { hostname := "example.com" } o).puppeteerCalls = 1 ∧
     (fetchArticleHtml { hostname := "example.com" } o).result = .ok "<html>rendered</html>") := by
  refine ⟨(fetch_escalation_once { hostname := "example.com" } _ _ rfl rfl rfl).1, ?_⟩
  exact (fetch_escalation_once { hostname := "example.com" } _
    { statusCode := some 403, message := "Failed to fetch URL: Forbidden" }
    rfl rfl rfl).2.2.1 _ rfl

/-- C3: a plain-fetch failure is classified as blocked exactly when its status
is 403 or 500 or its message contains "Forbidden", "403" or "500"; a
non-blocked failure is never escalated and is re-raised unchanged as
`FetchFailed`. -/
theorem blocked_classification_and_non_escalation (u : UrlParts) (o : FetchOracle)
    (e : JsError) (hp : o.plain = .error e) :
    (isBlocked e = true ↔
      (e.statusCode = some 403 ∨ e.statusCode = some 500 ∨
       strContains e.message "Forbidden" = true ∨
       strContains e.message "403" = true ∨
       strContains e.message "500" = true)) ∧
    (isBlocked e = false →
      (fetchArticleHtml u o).result = .error (.fetchFailed e) ∧
      (fetchArticleHtml u o).puppeteerCalls = 0) := by
  constructor
  · simp [isBlocked, or_assoc]
  · intro hnb
    constructor <;> simp [fetchArticleHtml, hp, hnb]

/-- Witness for `blocked_classification_and_non_escalation`: a 404 failure is
not blocked, is not escalated, and is re-raised as `FetchFailed`. -/
theorem blocked_classification_witness :
    (let e : JsError := { statusCode := some 404, message := "Failed to fetch URL: Not Found" }
     let o : FetchOracle :=
       { plain := .error e, puppeteerAvailable := true, isServerless := false,
         puppeteerResult := .ok "x" }
     isBlocked e = false ∧
     (fetchArticleHtml { hostname := "example.com" } o).result = .error (.fetchFailed e) ∧
     (fetchArticleHtml { hostname := "example.com" } o).puppeteerCalls = 0) := by
  refine ⟨by decide, ?_⟩
  exact (blocked_classification_and_non_escalation { hostname := "example.com" } _ _ rfl).2
    (by decide)

/-- C7: a blocked plain-fetch failure without browser automation fails at
once with `AutomationUnavailable` (escalation never runs), and the serverless
message differs from the not-installed message. -/
theorem automation_unavailable_split (u : UrlParts) (o : FetchOracle) (e : JsError)
    (hp : o.plain = .error e) (hb : isBlocked e = true)
    (hav : o.puppeteerAvailable = false) :
    (fetchArticleHtml u o).result =
      .error (.automationUnavailable o.isServerless
        (automationUnavailableMessage o.isServerless e)) ∧
    (fetchArticleHtml u o).puppeteerCalls = 0 ∧
    automationUnavailableMessage true e ≠ automationUnavailableMessage false e := by
  refine ⟨?_, ?_, ?_⟩
  · cases hsrv : o.isServerless <;>
      simp [fetchArticleHtml, hp, hb, hav, hsrv]
  · cases hsrv : o.isServerless <;>
      simp [fetchArticleHtml, hp, hb, hav, hsrv]
  · intro hmsg
    have h1 : automationUnavailableMessage true e =
        "Failed to fetch URL: " ++ e.message ++ ". This site blocked automated requests and requires browser automation, which is not available in serverless environments like Netlify Functions. Please use the local server (npm start) instead, or use a different article URL." := rfl
    have h2 : automationUnavailableMessage false e =
        "Failed to fetch URL: " ++ e.message ++ ". This site blocked automated requests and requires browser automation. Install Puppeteer with: npm install puppeteer" := rfl
    rw [h1, h2] at hmsg
    have hd := congrArg String.data hmsg
    simp only [String.data_append] at hd
    have htail := List.append_cancel_left hd
    exact absurd (congrArg List.length htail) (by decide)

/-- Witness for `automation_unavailable_split`: 403 in a serverless
environment without Puppeteer. -/
theorem automation_unavailable_split_witness :
    (let e : JsError := { statusCode := some 403, message := "Failed to fetch URL: Forbidden" }
     let o : FetchOracle :=
       { plain := .error e, puppeteerAvailable := false, isServerless := true,
         puppeteerResult := .ok "x" }
     (fetchArticleHtml { hostname := "example.com" } o).result =
       .error (.automationUnavailable true (automationUnavailableMessage true e)) ∧
     (fetchArticleHtml { hostname := "example.com" } o).puppeteerCalls = 0) := by
  refine ⟨?_, ?_⟩
  · exact (automation_unavailable_split { hostname := "example.com" } _ _ rfl (by decide) rfl).1
  · exact (automation_unavailable_split { hostname := "example.com" } _ _ rfl (by decide) rfl).2.1

/-- C10: the fetch phase does not depend on the hostname: the domain check
`requiresBrowserRendering` is computed (line 467) but its value never changes
the strategies used or the result, so two URLs that receive the same
responses behave identically even when exactly one of them is in the
JavaScript-requiring domain list. -/
theorem hostname_noninterference (u v : UrlParts) (o : FetchOracle)
    (hu : requiresBrowserRendering u = true)
    (hv : requiresBrowserRendering v = false) :
    fetchArticleHtml u o = fetchArticleHtml v o ∧
    (∀ u' v' o', fetchArticleHtml u' o' = fetchArticleHtml v' o') :=
  ⟨rfl, fun _ _ _ => rfl⟩

/-- Witness for `hostname_noninterference`: medium.com is in the domain list,
example.com is not, and the fetch phase result is the same for both. -/
theorem hostname_noninterference_witness :
    (let o : FetchOracle :=
      { plain := .error { statusCode := some 403, message := "Failed to fetch URL: Forbidden" },
        puppeteerAvailable := true, isServerless := false,
        puppeteerResult := .ok "<html>rendered</html>" }
     requiresBrowserRendering { hostname := "medium.com" } = true ∧
     requiresBrowserRendering { hostname := "example.com" } = false ∧
     fetchArticleHtml { hostname := "medium.com" } o =
       fetchArticleHtml { hostname := "example.com" } o) := by
  refine ⟨by decide, by decide, ?_⟩
  exact (hostname_noninterference { hostname := "medium.com" } { hostname := "example.com" } _
    (by decide) (by decide)).1

/-! ## Browser Automation Controller (fetchWithPuppeteer) -/

/-- One in-loop page evaluation of the challenge-resolution loop
(parseArticle.js lines 210-230): whether challenge markers are still in the
page text, whether article-shaped content is present, and whether the
navigation URL changed. -/
structure ChallengePoll where
  stillChallenged : Bool
  hasContent : Bool
  urlChanged : Bool
deriving DecidableEq, Repr

/-- Exit test of the challenge loop body (parseArticle.js lines 233-242):
markers gone and content present, or URL changed while markers gone. -/
def pollExit (p : ChallengePoll) : Bool :=
  (!p.stillChallenged && p.hasContent) || (p.urlChanged && !p.stillChallenged)

/-- parseArticle.js line 204. -/
def maxWaitTime : Nat := 30000

/-- parseArticle.js line 208: delay before each in-loop poll. -/
def pollDelay : Nat := 2000

/-- parseArticle.js line 246: delay after the simulated activity following a
non-exiting poll. -/
def activityDelay : Nat := 1000

/-- The challenge loop of parseArticle.js lines 203-247. `elapsed` is the
wall-clock time at the loop-guard check; each iteration sleeps `pollDelay`,
polls the page (the result stream `polls`), and on a non-exiting poll adds
`activityDelay` of simulated activity. Returns the index of the poll that
exited the loop, or `none` when the guard `elapsed < maxWaitTime` failed
first. The structural `fuel` argument dominates the time guard at every call
site (`fuel * (pollDelay + activityDelay) ≥ maxWaitTime - elapsed`), so the
fuel-exhaustion branch coincides with the guard failing. -/
def challengeLoopAux (polls : Nat → ChallengePoll) :
    Nat → Nat → Nat → Option Nat
  | 0, _, _ => none
  | fuel + 1, elapsed, i =>
    if elapsed < maxWaitTime then
      if pollExit (polls i) then some i
      else challengeLoopAux polls fuel (elapsed + pollDelay + activityDelay) (i + 1)
    else none

/-- The challenge loop started at time 0 with poll index 0. -/
def challengeLoop (polls : Nat → ChallengePoll) : Option Nat :=
  challengeLoopAux polls 11 0 0

/-- parseArticle.js lines 251-256: the marker re-check performed after the
loop when it did not complete, on the freshly read lower-cased body text. -/
def challengeFinalCheck (bodyText : String) : Bool :=
  let b := jsToLower bodyText
  strContains b "cloudflare" || strContains b "checking your browser" ||
  strContains b "verify you are human"

/-- parseArticle.js lines 269-272: the ChallengeTimeout message built in the
catch handler, carrying a page-text snippet (substring(0,500) then
substring(0,200)). -/
def challengeTimeoutMessage (bodyText : String) : String :=
  "Cloudflare challenge detected but did not complete in time. The site is using Cloudflare protection which may require manual verification. Page content: " ++
    jsSubstring (jsSubstring bodyText 500) 200

/-- Outcome of the challenge-resolution phase: loop exited at a poll, loop
timed out and the final re-check threw (fatal), or loop timed out but the
final re-check found no markers and rendering proceeded. -/
inductive ChallengeOutcome where
  | resolved (pollIndex : Nat)
  | timedOutFatal (message : String)
  | timedOutProceed
deriving DecidableEq, Repr

/-- parseArticle.js lines 203-261 composed: run the loop; when it did not
complete, run the final marker check (line 251) on the page body text and
throw (caught at line 267 and rewrapped with the page snippet) only if it
still finds markers; otherwise fall through to the post-loop settle. -/
def resolveChallenge (polls : Nat → ChallengePoll) (bodyText : String) :
    ChallengeOutcome :=
  match challengeLoop polls with
  | some i => .resolved i
  | none =>
    if challengeFinalCheck bodyText then
      .timedOutFatal (challengeTimeoutMessage bodyText)
    else
      .timedOutProceed

/-- When the loop exits at poll `j` having started at `(elapsed, i)`, then
`j` is in range, every guard check passed within the time budget, poll `j`
satisfied the exit condition and no earlier poll did. -/
theorem challengeLoopAux_some (polls : Nat → ChallengePoll) :
    ∀ fuel elapsed i j, challengeLoopAux polls fuel elapsed i = some j →
      i ≤ j ∧ elapsed + (j - i) * (pollDelay + activityDelay) < maxWaitTime ∧
      pollExit (polls j) = true ∧
      (∀ k, i ≤ k → k < j → pollExit (polls k) = false) := by
  intro fuel
  induction fuel with
  | zero => intro elapsed i j h; simp [challengeLoopAux] at h
  | succ n ih =>
    intro elapsed i j h
    rw [challengeLoopAux] at h
    by_cases hg : elapsed < maxWaitTime
    · rw [if_pos hg] at h
      by_cases hex : pollExit (polls i) = true
      · rw [if_pos hex] at h
        obtain rfl : i = j := Option.some.inj h
        refine ⟨le_refl i, ?_, hex, ?_⟩
        · simpa using hg
        · intro k hk1 hk2; omega
      · rw [if_neg hex] at h
        obtain ⟨h1, h2, h3, h4⟩ := ih _ _ _ h
        have hstep : j - i = (j - (i + 1)) + 1 := by omega
        have hmul : (j - i) * (pollDelay + activityDelay) =
            (j - (i + 1)) * (pollDelay + activityDelay) + (pollDelay + activityDelay) := by
          rw [hstep, Nat.succ_mul]
        refine ⟨by omega, by omega, h3, ?_⟩
        intro k hk1 hk2
        rcases Nat.eq_or_lt_of_le hk1 with rfl | hk1'
        · exact Bool.eq_false_iff.mpr hex
        · exact h4 k hk1' hk2
    · rw [if_neg hg] at h
      exact absurd h (by simp)

/-- C6 counterexample: when the in-loop markers are gone but no
article-shaped content ever appears (and the URL never changes), the loop
exhausts the 30-second budget without resolving — yet the render is NOT a
fatal ChallengeTimeout, because the post-loop final check finds none of its
markers in the body text and execution proceeds with the captured HTML. This
refutes the claim that exceeding the time budget without resolution is
always a fatal ChallengeTimeout. -/
theorem challenge_timeout_counterexample :
    challengeLoop (fun _ => { stillChallenged := false, hasContent := false,
                              urlChanged := false }) = none ∧
    resolveChallenge (fun _ => { stillChallenged := false, hasContent := false,
                                 urlChanged := false }) "Just a moment" =
      ChallengeOutcome.timedOutProceed := by
  constructor <;> rfl

/-- C6 amended: the challenge loop is bounded by the 30000 ms budget with a
2000 ms poll delay plus 1000 ms activity delay per iteration (so at most 10
polls, all within the budget); it exits successfully at the first poll where
markers are gone and content is present or the URL changed while markers are
gone; when the budget is exhausted without resolution, the render fails with
a fatal ChallengeTimeout carrying a page-text snippet exactly when a final
re-check still finds challenge text in the page body — otherwise rendering
proceeds with the captured HTML. -/
theorem challenge_loop_bounded_and_final_check (polls : Nat → ChallengePoll)
    (bodyText : String) :
    (∀ i, challengeLoop polls = some i →
      i ≤ 9 ∧ i * (pollDelay + activityDelay) < maxWaitTime ∧
      pollExit (polls i) = true ∧ (∀ j, j < i → pollExit (polls j) = false) ∧
      resolveChallenge polls bodyText = .resolved i) ∧
    (challengeLoop polls = none →
      (challengeFinalCheck bodyText = true →
        resolveChallenge polls bodyText =
          .timedOutFatal (challengeTimeoutMessage bodyText)) ∧
      (challengeFinalCheck bodyText = false →
        resolveChallenge polls bodyText = .timedOutProceed)) := by
  constructor
  · intro i h
    obtain ⟨h1, h2, h3, h4⟩ := challengeLoopAux_some polls 11 0 0 i h
    simp only [Nat.zero_add, Nat.sub_zero] at h2
    refine ⟨?_, h2, h3, fun j hj => h4 j (Nat.zero_le j) hj, ?_⟩
    · have : pollDelay + activityDelay = 3000 := rfl
      rw [this] at h2
      have : maxWaitTime = 30000 := rfl
      omega
    · simp [resolveChallenge, h]
  · intro h
    constructor <;> intro hfc <;> simp [resolveChallenge, h, hfc]

/-- A poll stream whose challenge resolves at the second poll (used as the
witness input below). -/
def witnessPolls : Nat → ChallengePoll := fun i =>
  if i = 1 then { stillChallenged := false, hasContent := true, urlChanged := false }
  else { stillChallenged := true, hasContent := false, urlChanged := false }

/-- Witness for `challenge_loop_bounded_and_final_check`: a challenge that
resolves at the second poll. -/
theorem challenge_loop_witness :
    challengeLoop witnessPolls = some 1 ∧
    (1 ≤ 9 ∧ 1 * (pollDelay + activityDelay) < maxWaitTime ∧
     pollExit (witnessPolls 1) = true ∧
     (∀ j, j < 1 → pollExit (witnessPolls j) = false) ∧
     resolveChallenge witnessPolls "article text" = .resolved 1) := by
  refine ⟨by decide, ?_⟩
  exact (challenge_loop_bounded_and_final_check witnessPolls "article text").1 1 (by decide)

/-! ## Browser session teardown (fetchWithPuppeteer lines 57-399) -/

/-- The browser-driver behaviour one render call consumes: whether
`puppeteer.launch` succeeded (and its error message when it threw), the
outcome of everything between launch and HTML capture, whether
`browser.close()` throws, and the serverless flag read in the catch
handler. -/
structure RenderOracle where
  launchOk : Bool
  launchErrMsg : String
  body : Except String String
  closeFails : Bool
  serverless : Bool
deriving Repr

/-- Events observable on the teardown path of `fetchWithPuppeteer`. -/
inductive RenderEvent where
  /-- the finally block invoked browser.close (line 393) -/
  | closeAttempted
  /-- a close failure was logged (line 395) instead of propagating -/
  | closeErrorLogged
deriving DecidableEq, Repr

/-- Result and teardown events of one render call. -/
structure RenderOutcome where
  result : Except String String
  events : List RenderEvent
deriving Repr

/-- parseArticle.js line 389: message of the error rethrown by the catch
handler of `fetchWithPuppeteer`. -/
def puppeteerFailedMessage (m : String) (serverless : Bool) : String :=
  "Puppeteer failed: " ++ m ++ ". " ++
    (if serverless then
      "Serverless environment detected - Puppeteer may not be fully supported."
     else "")

/-- parseArticle.js lines 57-399: the try/catch/finally structure of
`fetchWithPuppeteer`. When launch throws, `browser` stays undefined and the
finally block skips the close. When launch succeeded, the finally block always
calls `browser.close()`, on success and on error alike; a close failure is
logged and swallowed (lines 390-398), never changing the result. -/
def fetchWithPuppeteerRun (o : RenderOracle) : RenderOutcome :=
  if o.launchOk then
    { result :=
        match o.body with
        | .ok html => .ok html
        | .error m => .error (puppeteerFailedMessage m o.serverless),
      events := [RenderEvent.closeAttempted] ++
        (if o.closeFails then [RenderEvent.closeErrorLogged] else []) }
  else
    { result := .error (puppeteerFailedMessage o.launchErrMsg o.serverless),
      events := [] }

/-- C9: on every exit path of a render whose browser session was launched
(success, wrapped error, and regardless of whether closing fails), the
session close is attempted; a close failure is logged but never changes the
result returned to the caller; and when the launch itself failed there is no
session to close. -/
theorem browser_teardown (o : RenderOracle) :
    (o.launchOk = true →
      RenderEvent.closeAttempted ∈ (fetchWithPuppeteerRun o).events) ∧
    (∀ b, (fetchWithPuppeteerRun { o with closeFails := b }).result =
      (fetchWithPuppeteerRun o).result) ∧
    (o.closeFails = true → o.launchOk = true →
      RenderEvent.closeErrorLogged ∈ (fetchWithPuppeteerRun o).events) ∧
    (o.launchOk = false → (fetchWithPuppeteerRun o).events = []) := by
  refine ⟨?_, ?_, ?_, ?_⟩
  · intro h; simp [fetchWithPuppeteerRun, h]
  · intro b; cases h : o.launchOk <;> simp [fetchWithPuppeteerRun, h]
  · intro hc h; simp [fetchWithPuppeteerRun, h, hc]
  · intro h; simp [fetchWithPuppeteerRun, h]

/-- Witness for `browser_teardown`: a render whose page stage throws and
whose close also fails still attempts the close, logs the close failure, and
returns the page error. -/
theorem browser_teardown_witness :
    (let o : RenderOracle :=
      { launchOk := true, launchErrMsg := "", body := .error "Navigation timeout",
        closeFails := true, serverless := false }
     RenderEvent.closeAttempted ∈ (fetchWithPuppeteerRun o).events ∧
     RenderEvent.closeErrorLogged ∈ (fetchWithPuppeteerRun o).events ∧
     (fetchWithPuppeteerRun { o with closeFails := false }).result =
       (fetchWithPuppeteerRun o).result) := by
  refine ⟨(browser_teardown _).1 rfl, (browser_teardown _).2.2.1 rfl rfl, ?_⟩
  exact (browser_teardown
    { launchOk := true, launchErrMsg := "", body := .error "Navigation timeout",
      closeFails := true, serverless := false }).2.1 false

/-! ## Embed Detector (parseArticle.js lines 512-828)

The DOM query results the detector iterates over are given as input data:
each structure below holds exactly the fields the source reads from a
matched element. The per-candidate processing, id extraction, and the
deduplication logic are translated from the source. -/

/-- Kind of a detected embed (`type` field of the pushed objects). -/
inductive EmbedType where
  | youtube
  | twitter
deriving DecidableEq, Repr

/-- One detected embed descriptor, with the fields the source sets on the
pushed objects. `videoId`/`tweetId` are `none` where the JavaScript object
simply lacks the property (strategy-1 YouTube iframes set no `videoId`). The
`element` back-reference is not modelled (it is only read for identity in
the source). -/
structure Embed where
  type : EmbedType
  html : String
  videoId : Option String := none
  tweetId : Option String := none
  isGenerated : Bool := false
deriving DecidableEq, Repr

/-- A match of the strategy-1 selector
`iframe[src*="youtube.com"], iframe[src*="youtu.be"], iframe[src*="youtube-nocookie.com"]`
(lines 517-536): whether its parent carries a wrapper class or
`data-youtube-id` (line 522-523), and the outer HTML of iframe and parent. -/
structure YtIframeInfo where
  parentWrapper : Bool
  iframeHtml : String
  parentHtml : String
deriving DecidableEq, Repr

/-- A match of the strategy-2 selector (div with YouTube data attributes or
classes, lines 539-574): whether it contains a YouTube iframe (line 542,
then skipped), and the value of
`data-youtube-id || data-youtube-url` (line 543; `none` models null). -/
structure YtDivInfo where
  containsYtIframe : Bool
  dataId : Option String
deriving DecidableEq, Repr

/-- A match of the strategy-3 selector
`a[href*="youtube.com/watch"], a[href*="youtu.be/"]` (lines 577-618):
its href, whether its parent carries an `embed`/`video` class (line 593),
and the outer HTML of the parent. -/
structure YtLinkInfo where
  href : Option String
  parentEmbedWrapper : Bool
  parentHtml : String
deriving DecidableEq, Repr

/-- A match of the strategy-4 oEmbed selector (lines 621-639): its href. -/
structure OembedInfo where
  href : Option String
deriving DecidableEq, Repr

/-- A match of the Twitter strategy-1 selector
`blockquote.twitter-tweet, blockquote[class*="twitter-tweet"]`
(lines 674-753): the href of the first inner `a[href*="twitter.com/"],
a[href*="x.com/"]` (line 678), the text content, the outer HTML of an
associated sibling/parent widget script when one was found (lines 702-730),
whether the parent is a `twitter-tweet`/`twitter-container` div (line 734),
and the outer HTML of the blockquote and of the parent. -/
structure TwBqInfo where
  linkHref : Option String
  textContent : String
  scriptHtml : Option String
  parentTwitterWrapper : Bool
  parentHtml : String
  outerHtml : String
deriving DecidableEq, Repr

/-- A match of the Twitter strategy-2 selector
`iframe[src*="twitter.com"], iframe[src*="x.com"]` (lines 756-780). -/
structure TwIframeInfo where
  src : String
  parentTwitterWrapper : Bool
  parentHtml : String
  outerHtml : String
deriving DecidableEq, Repr

/-- The blockquote paired with a Twitter widget script by the sibling search
of strategy 3 (lines 784-797), when one was found. -/
structure TwBqPair where
  hasTwitterTweetClass : Bool
  linkHref : Option String
  textContent : String
  outerHtml : String
deriving DecidableEq, Repr

/-- A match of the Twitter strategy-3 selector
`script[src*="platform.twitter.com"], script[src*="platform.x.com"]`
(lines 783-828). -/
structure TwScriptInfo where
  pairedBq : Option TwBqPair
  scriptHtml : String
deriving DecidableEq, Repr

/-- The DOM query results of one parsed document, in the order the detector
consumes them, plus the serialized document HTML scanned by strategy 5. -/
structure Doc where
  ytIframes : List YtIframeInfo
  ytDivs : List YtDivInfo
  ytLinks : List YtLinkInfo
  oembedLinks : List OembedInfo
  serializedHtml : String
  twBlockquotes : List TwBqInfo
  twIframes : List TwIframeInfo
  twScripts : List TwScriptInfo
deriving DecidableEq, Repr

/-- Models the JavaScript idiom `s.split(sep)[1]?.split(stop)[0]` used to
pull a video id out of a URL (`none` models undefined). -/
def jsSplitExtract (s sep stop : String) : Option String :=
  ((jsSplit s sep).get? 1).map (fun t => (jsSplit t stop).headD "")

/-- The synthesized embed markup template (lines 561, 607, 628, 658). -/
def ytEmbedHtml (v : String) : String :=
  "<iframe src=\"https://www.youtube.com/embed/" ++ v ++
  "\" frameborder=\"0\" allow=\"accelerometer; autoplay; clipboard-write; encrypted-media; gyroscope; picture-in-picture\" allowfullscreen></iframe>"

/-- Lines 518-536 (YouTube strategy 1): promote to the parent wrapper when
marked, then push unless markup-identical to an already found embed. The
pushed object carries no `videoId`. -/
def ytIframeStep (embeds : List Embed) (it : YtIframeInfo) : List Embed :=
  let html := if it.parentWrapper then it.parentHtml else it.iframeHtml
  if html != "" && !(embeds.any (fun e => e.html == html)) then
    embeds ++ [{ type := .youtube, html := html }]
  else embeds

/-- Lines 550-557: normalize a data-attribute value that may be a full watch
URL, a short link, or a bare id. -/
def normalizeYtDataId (yid : String) : Option String :=
  if strContains yid "youtube.com/watch?v=" then jsSplitExtract yid "v=" "&"
  else if strContains yid "youtu.be/" then jsSplitExtract yid "youtu.be/" "?"
  else some yid

/-- Lines 540-574 (YouTube strategy 2): skip containers that hold an iframe
(handled by strategy 1), normalize the data-attribute id, synthesize a frame,
and push unless the id is already present. -/
def ytDivStep (embeds : List Embed) (d : YtDivInfo) : List Embed :=
  if d.containsYtIframe then embeds
  else
    match d.dataId with
    | none => embeds
    | some yid =>
      if yid == "" then embeds
      else
        match normalizeYtDataId yid with
        | none => embeds
        | some v =>
          if v != "" && !(embeds.any (fun e => e.videoId == some v)) then
            embeds ++ [{ type := .youtube, html := ytEmbedHtml v, videoId := some v,
                         isGenerated := true }]
          else embeds

/-- Lines 583-587: extract a video id from an anchor href. -/
def ytLinkVideoId (href : String) : Option String :=
  if strContains href "youtube.com/watch?v=" then jsSplitExtract href "v=" "&"
  else if strContains href "youtu.be/" then jsSplitExtract href "youtu.be/" "?"
  else none

/-- Lines 578-618 (YouTube strategy 3): extract the id from the href; when
the id is new, either copy the parent embed wrapper (deduplicated by markup,
pushed with the id but not marked generated) or synthesize a frame. -/
def ytLinkStep (embeds : List Embed) (lk : YtLinkInfo) : List Embed :=
  match lk.href with
  | none => embeds
  | some href =>
    if href == "" then embeds
    else
      match ytLinkVideoId href with
      | none => embeds
      | some v =>
        if v != "" && !(embeds.any (fun e => e.videoId == some v)) then
          if lk.parentEmbedWrapper then
            if !(embeds.any (fun e => e.html == lk.parentHtml)) then
              embeds ++ [{ type := .youtube, html := lk.parentHtml, videoId := some v }]
            else embeds
          else
            embeds ++ [{ type := .youtube, html := ytEmbedHtml v, videoId := some v,
                         isGenerated := true }]
        else embeds

/-- Lines 622-639 (YouTube strategy 4): ids from oEmbed/embed URLs. -/
def oembedStep (embeds : List Embed) (o : OembedInfo) : List Embed :=
  match o.href with
  | none => embeds
  | some href =>
    if href != "" && strContains href "youtube.com/embed/" then
      match jsSplitExtract href "embed/" "?" with
      | none => embeds
      | some v =>
        if v != "" && !(embeds.any (fun e => e.videoId == some v)) then
          embeds ++ [{ type := .youtube, html := ytEmbedHtml v, videoId := some v,
                       isGenerated := true }]
        else embeds
    else embeds

/-- Character class of the strategy-5 regular expression
`[a-zA-Z0-9_-]`. -/
def idChar (c : Char) : Bool :=
  c.isAlpha || c.isDigit || c == '_' || c == '-'

/-- One attempted match of the strategy-5 pattern at the current position:
the given alternation prefix followed by exactly 11 id characters. Returns
the id and the remaining input past the match. -/
def tryYtUrlMatch (pre cs : List Char) : Option (String × List Char) :=
  if pre.isPrefixOf cs then
    let after := cs.drop pre.length
    let idChars := after.take 11
    if idChars.length == 11 && idChars.all idChar then
      some (String.mk idChars, after.drop 11)
    else none
  else none

/-- Line 643: the global scan of the pattern
`(?:youtube\.com\/watch\?v=|youtu\.be\/)([a-zA-Z0-9_-]{11})` over the
serialized HTML, yielding captured ids in order. The fuel equals the input
length and each step consumes at least one character, so the fuel branch is
never the deciding one. -/
def scanYtIdsAux : Nat → List Char → List String
  | 0, _ => []
  | _ + 1, [] => []
  | fuel + 1, c :: rest =>
    match tryYtUrlMatch "youtube.com/watch?v=".data (c :: rest) with
    | some (id, rest2) => id :: scanYtIdsAux fuel rest2
    | none =>
      match tryYtUrlMatch "youtu.be/".data (c :: rest) with
      | some (id, rest2) => id :: scanYtIdsAux fuel rest2
      | none => scanYtIdsAux fuel rest

/-- All video ids captured by the strategy-5 sweep of the serialized
document. -/
def scanYtIds (s : String) : List String :=
  scanYtIdsAux s.data.length s.data

/-- Lines 641-668 (YouTube strategy 5): collect scanned ids into the
insertion-ordered `foundVideoIds` set, filtering ids already present in the
embed list, then push a synthesized frame for each id still absent. -/
def ytSweep (embeds : List Embed) (serialized : String) : List Embed :=
  let ids := scanYtIds serialized
  let foundVideoIds := ids.foldl (fun acc v =>
    if v != "" && !(embeds.any (fun e => e.videoId == some v)) && !(acc.contains v) then
      acc ++ [v]
    else acc) []
  foundVideoIds.foldl (fun es v =>
    if !(es.any (fun e => e.videoId == some v)) then
      es ++ [{ type := .youtube, html := ytEmbedHtml v, videoId := some v,
               isGenerated := true }]
    else es) embeds

/-- Leading run of decimal digits. -/
def digitRun : List Char → List Char
  | [] => []
  | c :: rest => if c.isDigit then c :: digitRun rest else []

/-- First match of the pattern `\/(status|statuses)\/(\d+)` (lines 684, 760,
805): scan for `/status/` or `/statuses/` followed by at least one digit and
capture the digit run. -/
def statusIdScan : List Char → Option String
  | [] => none
  | c :: rest =>
    if "/status/".data.isPrefixOf (c :: rest) then
      let ds := digitRun ((c :: rest).drop 8)
      if ds.isEmpty then statusIdScan rest else some (String.mk ds)
    else if "/statuses/".data.isPrefixOf (c :: rest) then
      let ds := digitRun ((c :: rest).drop 10)
      if ds.isEmpty then statusIdScan rest else some (String.mk ds)
    else statusIdScan rest

/-- Tweet-id extraction from a URL string. -/
def statusIdOf (s : String) : Option String := statusIdScan s.data

/-- Lines 691-694 and 811-814: content-hash fallback tweet id —
the hash_ prefix plus the first 100 characters of textContent with whitespace removed, cut to 50 characters. -/
def hashFallbackId (textContent : String) : String :=
  "hash_" ++ String.mk (((textContent.data.take 100).filter
    (fun c => !c.isWhitespace)).take 50)

/-- The accumulating state of the Twitter strategies: the shared embed list
and the `foundTweetIds` set (insertion-ordered). -/
structure DetState where
  embeds : List Embed
  foundTweetIds : List String
deriving DecidableEq, Repr

/-- Lines 676-753 (Twitter strategy 1): tweet id from the inner status link
or the hash fallback; skip ids already found; promote to the parent wrapper
when marked; concatenate the associated widget script markup when not already
contained. -/
def twBqStep (st : DetState) (bq : TwBqInfo) : DetState :=
  let tweetId :=
    match bq.linkHref.bind statusIdOf with
    | some tid => tid
    | none => hashFallbackId bq.textContent
  if st.foundTweetIds.contains tweetId then st
  else
    let baseHtml := if bq.parentTwitterWrapper then bq.parentHtml else bq.outerHtml
    let html :=
      match bq.scriptHtml with
      | some sh => if !(strContains baseHtml sh) then baseHtml ++ sh else baseHtml
      | none => baseHtml
    { embeds := st.embeds ++ [{ type := .twitter, html := html, tweetId := some tweetId }],
      foundTweetIds := st.foundTweetIds ++ [tweetId] }

/-- Lines 757-780 (Twitter strategy 2): tweet id from the iframe src, or the
`iframe_` fallback from the first 50 characters of the src. -/
def twIframeStep (st : DetState) (ifr : TwIframeInfo) : DetState :=
  let tweetId :=
    match statusIdOf ifr.src with
    | some tid => tid
    | none => "iframe_" ++ jsSubstring ifr.src 50
  if st.foundTweetIds.contains tweetId then st
  else
    let html := if ifr.parentTwitterWrapper then ifr.parentHtml else ifr.outerHtml
    { embeds := st.embeds ++ [{ type := .twitter, html := html, tweetId := some tweetId }],
      foundTweetIds := st.foundTweetIds ++ [tweetId] }

/-- Lines 784-828 (Twitter strategy 3): a widget script paired with a
sibling `twitter-tweet` blockquote; same id extraction; markup is blockquote
plus script. -/
def twScriptStep (st : DetState) (sc : TwScriptInfo) : DetState :=
  match sc.pairedBq with
  | none => st
  | some bq =>
    if bq.hasTwitterTweetClass then
      let tweetId :=
        match bq.linkHref.bind statusIdOf with
        | some tid => tid
        | none => hashFallbackId bq.textContent
      if st.foundTweetIds.contains tweetId then st
      else
        { embeds := st.embeds ++
            [{ type := .twitter, html := bq.outerHtml ++ sc.scriptHtml,
               tweetId := some tweetId }],
          foundTweetIds := st.foundTweetIds ++ [tweetId] }
    else st

/-- Lines 512-828: the full detection pass, strategies in source order, all
feeding one embed list. -/
def detect (doc : Doc) : List Embed :=
  let e1 := doc.ytIframes.foldl ytIframeStep []
  let e2 := doc.ytDivs.foldl ytDivStep e1
  let e3 := doc.ytLinks.foldl ytLinkStep e2
  let e4 := doc.oembedLinks.foldl oembedStep e3
  let e5 := ytSweep e4 doc.serializedHtml
  let st1 := doc.twBlockquotes.foldl twBqStep { embeds := e5, foundTweetIds := [] }
  let st2 := doc.twIframes.foldl twIframeStep st1
  let st3 := doc.twScripts.foldl twScriptStep st2
  st3.embeds

/-- Two descriptors of the same kind carrying the same canonical id (the
video id for video embeds, the tweet id for social-post embeds). -/
def sameCanonicalId (a b : Embed) : Prop :=
  (a.type = .youtube ∧ b.type = .youtube ∧
    ∃ v, a.videoId = some v ∧ b.videoId = some v) ∨
  (a.type = .twitter ∧ b.type = .twitter ∧
    ∃ t, a.tweetId = some t ∧ b.tweetId = some t)

/-- No two descriptors in the list share a canonical id of the same kind. -/
def NoDupIds (l : List Embed) : Prop :=
  l.Pairwise (fun a b => ¬ sameCanonicalId a b)

/-- All descriptors lack a tweet id (true throughout the video stages). -/
def AllTweetNone (l : List Embed) : Prop := ∀ e ∈ l, e.tweetId = none

/-- Every synthesized video descriptor carries a non-empty video id and the
standard embed-frame markup for that id. -/
def GenOk (l : List Embed) : Prop :=
  ∀ e ∈ l, e.type = EmbedType.youtube → e.isGenerated = true →
    ∃ v, e.videoId = some v ∧ v ≠ "" ∧ e.html = ytEmbedHtml v

/-- Invariant carried through the five video strategies. -/
def YtInv (l : List Embed) : Prop := NoDupIds l ∧ AllTweetNone l ∧ GenOk l

/-- Invariant carried through the three social-post strategies: dedup and
well-formedness of the embeds plus every present tweet id being registered
in the `foundTweetIds` set. -/
def TwInv (st : DetState) : Prop :=
  NoDupIds st.embeds ∧ GenOk st.embeds ∧
  ∀ e ∈ st.embeds, ∀ t, e.tweetId = some t → t ∈ st.foundTweetIds

/-- A fold preserves an invariant when every step does, assuming a property
of the elements folded over. -/
theorem foldl_preserve {α σ : Type} (P : σ → Prop) (Q : α → Prop) (f : σ → α → σ)
    (h : ∀ s a, Q a → P s → P (f s a)) :
    ∀ (l : List α), (∀ a ∈ l, Q a) → ∀ s, P s → P (l.foldl f s)
  | [], _, _, hs => hs
  | a :: l, hl, s, hs =>
    foldl_preserve P Q f h l (fun b hb => hl b (List.mem_cons_of_mem a hb)) (f s a)
      (h s a (hl a (List.mem_cons_self a l)) hs)

/-- Appending a descriptor that conflicts with nothing preserves dedup. -/
theorem noDupIds_append (l : List Embed) (e : Embed) (h : NoDupIds l)
    (hcross : ∀ a ∈ l, ¬ sameCanonicalId a e) : NoDupIds (l ++ [e]) := by
  rw [NoDupIds, List.pairwise_append]
  refine ⟨h, List.pairwise_singleton _ _, ?_⟩
  intro a ha b hb
  rw [List.mem_singleton] at hb
  subst hb
  exact hcross a ha

/-- A descriptor with neither id conflicts with nothing. -/
theorem no_conflict_of_no_ids (l : List Embed) (e : Embed)
    (hv : e.videoId = none) (ht : e.tweetId = none) :
    ∀ a ∈ l, ¬ sameCanonicalId a e := by
  intro a _ hsame
  rcases hsame with ⟨_, _, v, _, hbv⟩ | ⟨_, _, t, _, hbt⟩
  · rw [hv] at hbv; exact Option.noConfusion hbv
  · rw [ht] at hbt; exact Option.noConfusion hbt

/-- A `false` result of the video-id dedup scan means the id is fresh. -/
theorem videoId_fresh {l : List Embed} {v : String}
    (h : (l.any fun e => e.videoId == some v) = false) :
    ∀ a ∈ l, a.videoId ≠ some v := by
  intro a ha hv
  have : (l.any fun e => e.videoId == some v) = true :=
    List.any_eq_true.mpr ⟨a, ha, by simp [hv]⟩
  rw [this] at h
  exact Bool.noConfusion h

/-- A video descriptor with a fresh video id and no tweet id conflicts with
nothing in a list where its id is fresh. -/
theorem no_conflict_of_fresh_video (l : List Embed) (e : Embed) (v : String)
    (hv : e.videoId = some v) (ht : e.tweetId = none)
    (hfresh : ∀ a ∈ l, a.videoId ≠ some v) :
    ∀ a ∈ l, ¬ sameCanonicalId a e := by
  intro a ha hsame
  rcases hsame with ⟨_, _, w, haw, hbw⟩ | ⟨_, _, t, _, hbt⟩
  · rw [hv] at hbw
    obtain rfl : w = v := (Option.some.inj hbw).symm ▸ rfl
    exact hfresh a ha (hbw ▸ haw)
  · rw [ht] at hbt; exact Option.noConfusion hbt

/-- Pushing a verbatim-copied video descriptor (no ids) preserves the video
stage invariant. -/
theorem ytInv_append_copy (l : List Embed) (html : String) (h : YtInv l) :
    YtInv (l ++ [{ type := .youtube, html := html }]) := by
  obtain ⟨h1, h2, h3⟩ := h
  refine ⟨noDupIds_append l _ h1 (no_conflict_of_no_ids l _ rfl rfl), ?_, ?_⟩
  · intro e he
    rcases List.mem_append.mp he with he | he
    · exact h2 e he
    · rw [List.mem_singleton] at he; subst he; rfl
  · intro e he hty hgen
    rcases List.mem_append.mp he with he | he
    · exact h3 e he hty hgen
    · rw [List.mem_singleton] at he; subst he; exact Bool.noConfusion hgen

/-- Pushing a synthesized video descriptor with a fresh non-empty id
preserves the video stage invariant. -/
theorem ytInv_append_gen (l : List Embed) (v : String) (h : YtInv l) (hv : v ≠ "")
    (hfresh : ∀ a ∈ l, a.videoId ≠ some v) :
    YtInv (l ++ [{ type := .youtube, html := ytEmbedHtml v, videoId := some v,
                   isGenerated := true }]) := by
  obtain ⟨h1, h2, h3⟩ := h
  refine ⟨noDupIds_append l _ h1 (no_conflict_of_fresh_video l _ v rfl rfl hfresh), ?_, ?_⟩
  · intro e he
    rcases List.mem_append.mp he with he | he
    · exact h2 e he
    · rw [List.mem_singleton] at he; subst he; rfl
  · intro e he hty hgen
    rcases List.mem_append.mp he with he | he
    · exact h3 e he hty hgen
    · rw [List.mem_singleton] at he; subst he; exact ⟨v, rfl, hv, rfl⟩

/-- Pushing a wrapper-copied video descriptor carrying a fresh id (strategy
3, parent-wrapper branch, not marked generated) preserves the invariant. -/
theorem ytInv_append_wrapper (l : List Embed) (html v : String) (h : YtInv l)
    (hfresh : ∀ a ∈ l, a.videoId ≠ some v) :
    YtInv (l ++ [{ type := .youtube, html := html, videoId := some v }]) := by
  obtain ⟨h1, h2, h3⟩ := h
  refine ⟨noDupIds_append l _ h1 (no_conflict_of_fresh_video l _ v rfl rfl hfresh), ?_, ?_⟩
  · intro e he
    rcases List.mem_append.mp he with he | he
    · exact h2 e he
    · rw [List.mem_singleton] at he; subst he; rfl
  · intro e he hty hgen
    rcases List.mem_append.mp he with he | he
    · exact h3 e he hty hgen
    · rw [List.mem_singleton] at he; subst he; exact Bool.noConfusion hgen

/-- Strategy 1 preserves the video stage invariant. -/
theorem ytIframeStep_inv (l : List Embed) (it : YtIframeInfo) (h : YtInv l) :
    YtInv (ytIframeStep l it) := by
  unfold ytIframeStep
  split <;> dsimp only <;> split
  all_goals first
    | exact ytInv_append_copy l _ h
    | exact h

/-- Strategy 2 preserves the video stage invariant. -/
theorem ytDivStep_inv (l : List Embed) (d : YtDivInfo) (h : YtInv l) :
    YtInv (ytDivStep l d) := by
  unfold ytDivStep
  split
  · exact h
  · split
    · exact h
    · split
      · exact h
      · split
        · exact h
        · rename_i yid _ v _
          split
          · rename_i hguard
            rw [Bool.and_eq_true, bne_iff_ne, Bool.not_eq_true'] at hguard
            exact ytInv_append_gen l v h hguard.1 (videoId_fresh hguard.2)
          · exact h

/-- Strategy 3 preserves the video stage invariant. -/
theorem ytLinkStep_inv (l : List Embed) (lk : YtLinkInfo) (h : YtInv l) :
    YtInv (ytLinkStep l lk) := by
  unfold ytLinkStep
  split
  · exact h
  · split
    · exact h
    · split
      · exact h
      · rename_i href _ v _
        split
        · rename_i hguard
          rw [Bool.and_eq_true, bne_iff_ne, Bool.not_eq_true'] at hguard
          split
          · split
            · exact ytInv_append_wrapper l _ v h (videoId_fresh hguard.2)
            · exact h
          · exact ytInv_append_gen l v h hguard.1 (videoId_fresh hguard.2)
        · exact h

/-- Strategy 4 preserves the video stage invariant. -/
theorem oembedStep_inv (l : List Embed) (o : OembedInfo) (h : YtInv l) :
    YtInv (oembedStep l o) := by
  unfold oembedStep
  split
  · exact h
  · split
    · split
      · exact h
      · rename_i href _ v _
        split
        · rename_i hguard
          rw [Bool.and_eq_true, bne_iff_ne, Bool.not_eq_true'] at hguard
          exact ytInv_append_gen l v h hguard.1 (videoId_fresh hguard.2)
        · exact h
    · exact h

/-- Every id collected into `foundVideoIds` by the strategy-5 sweep is
non-empty and fresh with respect to the pre-sweep embed list. -/
theorem sweep_found_ids (embeds : List Embed) (ids : List String) :
    ∀ x ∈ ids.foldl (fun acc v =>
      if v != "" && !(embeds.any (fun e => e.videoId == some v)) && !(acc.contains v) then
        acc ++ [v]
      else acc) [],
      x ≠ "" := by
  have : ∀ (l : List String) (acc : List String), (∀ x ∈ acc, x ≠ "") →
      ∀ x ∈ l.foldl (fun acc v =>
        if v != "" && !(embeds.any (fun e => e.videoId == some v)) && !(acc.contains v) then
          acc ++ [v]
        else acc) acc, x ≠ "" := by
    intro l
    induction l with
    | nil => intro acc hacc; exact hacc
    | cons v rest ih =>
      intro acc hacc
      simp only [List.foldl_cons]
      split
      · rename_i hguard
        rw [Bool.and_eq_true, Bool.and_eq_true, bne_iff_ne] at hguard
        refine ih _ ?_
        intro x hx
        rcases List.mem_append.mp hx with hx | hx
        · exact hacc x hx
        · rw [List.mem_singleton] at hx; subst hx; exact hguard.1.1
      · exact ih _ hacc
  exact this ids [] (by intro x hx; exact absurd hx (List.not_mem_nil x))

/-- Strategy 5 preserves the video stage invariant. -/
theorem ytSweep_inv (l : List Embed) (serialized : String) (h : YtInv l) :
    YtInv (ytSweep l serialized) := by
  unfold ytSweep
  refine foldl_preserve YtInv (fun v => v ≠ "") _ ?_ _
    (sweep_found_ids l (scanYtIds serialized)) l h
  intro es v hv hinv
  dsimp only
  split
  · rename_i hguard
    rw [Bool.not_eq_true'] at hguard
    exact ytInv_append_gen es v hinv hv (videoId_fresh hguard)
  · exact hinv

/-- The video stages together establish the video stage invariant. -/
theorem ytStages_inv (doc : Doc) :
    YtInv (ytSweep
      (doc.oembedLinks.foldl oembedStep
        (doc.ytLinks.foldl ytLinkStep
          (doc.ytDivs.foldl ytDivStep
            (doc.ytIframes.foldl ytIframeStep [])))) doc.serializedHtml) := by
  have h0 : YtInv [] :=
    ⟨List.Pairwise.nil, fun e he => absurd he (List.not_mem_nil e),
     fun e he => absurd he (List.not_mem_nil e)⟩
  have h1 := foldl_preserve YtInv (fun _ => True) ytIframeStep
    (fun s a _ => ytIframeStep_inv s a) doc.ytIframes (fun _ _ => trivial) [] h0
  have h2 := foldl_preserve YtInv (fun _ => True) ytDivStep
    (fun s a _ => ytDivStep_inv s a) doc.ytDivs (fun _ _ => trivial) _ h1
  have h3 := foldl_preserve YtInv (fun _ => True) ytLinkStep
    (fun s a _ => ytLinkStep_inv s a) doc.ytLinks (fun _ _ => trivial) _ h2
  have h4 := foldl_preserve YtInv (fun _ => True) oembedStep
    (fun s a _ => oembedStep_inv s a) doc.oembedLinks (fun _ _ => trivial) _ h3
  exact ytSweep_inv _ doc.serializedHtml h4

/-- Pushing a social-post descriptor whose tweet id is not yet registered
preserves the social stage invariant. -/
theorem twInv_push (st : DetState) (html t : String) (h : TwInv st)
    (hfresh : st.foundTweetIds.contains t = false) :
    TwInv { embeds := st.embeds ++ [{ type := .twitter, html := html, tweetId := some t }],
            foundTweetIds := st.foundTweetIds ++ [t] } := by
  obtain ⟨h1, h2, h3⟩ := h
  have hnotmem : t ∉ st.foundTweetIds := by
    intro hm
    have ht : st.foundTweetIds.contains t = true := by
      simpa [List.contains, List.elem_iff] using hm
    rw [ht] at hfresh
    exact Bool.noConfusion hfresh
  refine ⟨?_, ?_, ?_⟩
  · refine noDupIds_append _ _ h1 ?_
    intro a ha hsame
    rcases hsame with ⟨_, hb, _, _, _⟩ | ⟨_, _, t', hat, hbt⟩
    · exact EmbedType.noConfusion hb
    · have hts : some t = some t' := hbt
      have htt : t' = t := (Option.some.inj hts).symm
      rw [htt] at hat
      exact hnotmem (h3 a ha t hat)
  · intro e he hty hgen
    rcases List.mem_append.mp he with he | he
    · exact h2 e he hty hgen
    · rw [List.mem_singleton] at he; subst he; exact EmbedType.noConfusion hty
  · intro e he t' ht'
    rcases List.mem_append.mp he with he | he
    · exact List.mem_append.mpr (Or.inl (h3 e he t' ht'))
    · rw [List.mem_singleton] at he; subst he
      have hts : some t = some t' := ht'
      obtain rfl : t' = t := (Option.some.inj hts).symm
      exact List.mem_append.mpr (Or.inr (List.mem_singleton.mpr rfl))

/-- Twitter strategy 1 preserves the social stage invariant. -/
theorem twBqStep_inv (st : DetState) (bq : TwBqInfo) (h : TwInv st) :
    TwInv (twBqStep st bq) := by
  unfold twBqStep
  split <;> dsimp only <;> split
  all_goals first
    | exact h
    | (rename_i hguard; exact twInv_push st _ _ h (by simpa using hguard))

/-- Twitter strategy 2 preserves the social stage invariant. -/
theorem twIframeStep_inv (st : DetState) (ifr : TwIframeInfo) (h : TwInv st) :
    TwInv (twIframeStep st ifr) := by
  unfold twIframeStep
  split <;> dsimp only <;> split
  all_goals first
    | exact h
    | (rename_i hguard; exact twInv_push st _ _ h (by simpa using hguard))

/-- Twitter strategy 3 preserves the social stage invariant. -/
theorem twScriptStep_inv (st : DetState) (sc : TwScriptInfo) (h : TwInv st) :
    TwInv (twScriptStep st sc) := by
  unfold twScriptStep
  split
  · exact h
  · split
    · split <;> dsimp only <;> split
      all_goals first
        | exact h
        | (rename_i hguard; exact twInv_push st _ _ h (by simpa using hguard))
    · exact h

/-- The full detection pass keeps the deduplication and well-formedness
invariants. -/
theorem detect_inv (doc : Doc) : NoDupIds (detect doc) ∧ GenOk (detect doc) := by
  have hyt := ytStages_inv doc
  obtain ⟨hd, ha, hg⟩ := hyt
  have h0 : TwInv (DetState.mk (ytSweep
      (doc.oembedLinks.foldl oembedStep
        (doc.ytLinks.foldl ytLinkStep
          (doc.ytDivs.foldl ytDivStep
            (doc.ytIframes.foldl ytIframeStep [])))) doc.serializedHtml) []) := by
    refine ⟨hd, hg, ?_⟩
    intro e he t ht
    rw [ha e he] at ht
    exact Option.noConfusion ht
  have h1 := foldl_preserve TwInv (fun _ => True) twBqStep
    (fun s a _ => twBqStep_inv s a) doc.twBlockquotes (fun _ _ => trivial) _ h0
  have h2 := foldl_preserve TwInv (fun _ => True) twIframeStep
    (fun s a _ => twIframeStep_inv s a) doc.twIframes (fun _ _ => trivial) _ h1
  have h3 := foldl_preserve TwInv (fun _ => True) twScriptStep
    (fun s a _ => twScriptStep_inv s a) doc.twScripts (fun _ _ => trivial) _ h2
  exact ⟨h3.1, h3.2.1⟩

/-- The iframe markup of the concrete documents used below. -/
def cexIframeHtml : String :=
  "<iframe src=\"https://www.youtube.com/embed/abc12345678\"></iframe>"

/-- A document exposing the same video identifier `abc12345678` through an
iframe embed, a data-attribute container, and a watch-link anchor (plus the
serialized HTML the sweep scans). -/
def cexDedupDoc : Doc where
  ytIframes := [{ parentWrapper := false, iframeHtml := cexIframeHtml, parentHtml := "" }]
  ytDivs := [{ containsYtIframe := false, dataId := some "abc12345678" }]
  ytLinks := [{ href := some "https://www.youtube.com/watch?v=abc12345678",
                parentEmbedWrapper := false, parentHtml := "" }]
  oembedLinks := []
  serializedHtml := "<a href=\"https://www.youtube.com/watch?v=abc12345678\">watch</a>"
  twBlockquotes := []
  twIframes := []
  twScripts := []

/-- C1 counterexample: the document exposing one video identifier through an
iframe, a data-attribute container, and a watch-link anchor yields exactly
TWO video descriptors whose markup embeds that identifier, not one — the
iframe-strategy descriptor carries no video id, so the id-keyed
deduplication of the later strategies never matches it. -/
theorem dedup_counterexample :
    ((detect cexDedupDoc).filter (fun e =>
      e.type == EmbedType.youtube && strContains e.html "abc12345678")).length = 2 ∧
    (detect cexDedupDoc).map (fun e => e.videoId) = [none, some "abc12345678"] := by
  constructor <;> rfl

/-- C1 amended: after detection no two descriptors of the same kind share a
canonical id among those that carry one — but iframe-strategy video
descriptors carry no id (they are deduplicated by raw markup only), so the
iframe/data-attribute/watch-link document yields two descriptors for one
identifier (see `dedup_counterexample`). -/
theorem detect_no_duplicate_ids (doc : Doc) :
    (detect doc).Pairwise (fun a b => ¬ sameCanonicalId a b) :=
  (detect_inv doc).1

/-- An iframe-only document: its single video descriptor has no canonical id
at all and no content-hash fallback id. -/
def cexIframeOnlyDoc : Doc where
  ytIframes := [{ parentWrapper := false, iframeHtml := cexIframeHtml, parentHtml := "" }]
  ytDivs := []
  ytLinks := []
  oembedLinks := []
  serializedHtml := ""
  twBlockquotes := []
  twIframes := []
  twScripts := []

/-- C4 counterexample: a detected video embed (from the iframe strategy)
whose `videoId` is absent — the claim that every video descriptor has a
non-empty canonical id, with a content-hash fallback when none can be
derived, fails on it (no hash fallback exists on the video path). -/
theorem video_id_absent_counterexample :
    detect cexIframeOnlyDoc =
      [{ type := EmbedType.youtube, html := cexIframeHtml, videoId := none,
         tweetId := none, isGenerated := false }] ∧
    ((detect cexIframeOnlyDoc).all fun e => e.videoId == none) = true := by
  constructor <;> rfl

/-- C4 amended: every SYNTHESIZED video descriptor carries a non-empty video
id and its markup is the single standard embed frame whose source embeds
that id; verbatim-copied video descriptors (direct iframes and wrapper
containers) keep the page markup and may carry no id — video embeds have no
content-hash fallback id (the hash fallback exists only for social posts). -/
theorem detect_generated_video_wellformed (doc : Doc) (e : Embed)
    (he : e ∈ detect doc) (hty : e.type = EmbedType.youtube)
    (hgen : e.isGenerated = true) :
    ∃ v, e.videoId = some v ∧ v ≠ "" ∧ e.html = ytEmbedHtml v :=
  (detect_inv doc).2 e he hty hgen

/-- A data-attribute-only document whose descriptor is synthesized (used as
the witness input below). -/
def genWitnessDoc : Doc where
  ytIframes := []
  ytDivs := [{ containsYtIframe := false, dataId := some "abc12345678" }]
  ytLinks := []
  oembedLinks := []
  serializedHtml := ""
  twBlockquotes := []
  twIframes := []
  twScripts := []

/-- The synthesized descriptor produced for `genWitnessDoc`. -/
def genWitnessEmbed : Embed :=
  { type := EmbedType.youtube, html := ytEmbedHtml "abc12345678",
    videoId := some "abc12345678", tweetId := none, isGenerated := true }

/-- Witness for `detect_generated_video_wellformed` at a concrete
document. -/
theorem detect_generated_video_wellformed_witness :
    genWitnessEmbed ∈ detect genWitnessDoc ∧
    (∃ v, genWitnessEmbed.videoId = some v ∧ v ≠ "" ∧
      genWitnessEmbed.html = ytEmbedHtml v) := by
  refine ⟨by decide, ?_⟩
  exact detect_generated_video_wellformed genWitnessDoc genWitnessEmbed (by decide) rfl rfl

/-! ## Content Reconciler (parseArticle.js lines 839-963)

The DOM trees the reconciler manipulates are modelled as a rose tree with
the fields the source reads and writes: tag name (lower-cased), attributes,
class list, inline style (the cssText), and children. Parsing the HTML
string of an embed into nodes is the DOM collaborator, passed in as `parse`. -/

/-- A DOM node: text or element with tag, attributes, classes, inline style
and children. -/
inductive Node where
  | text (s : String)
  | elem (tag : String) (attrs : List (String × String)) (classes : List String)
         (style : String) (children : List Node)
deriving Repr

/-- Attribute lookup (`getAttribute`). -/
def getAttr (attrs : List (String × String)) (name : String) : Option String :=
  (attrs.find? (fun p => p.1 == name)).map (fun p => p.2)

/-- Whether an element matches `a[href*="twitter"], a[href*="x.com"]`
(line 927). -/
def isTwAnchorElem (tag : String) (attrs : List (String × String)) : Bool :=
  tag == "a" &&
    (match getAttr attrs "href" with
     | some href => strContains href "twitter" || strContains href "x.com"
     | none => false)

/-- Whether an element matches `a[href*="youtube"], a[href*="youtu.be"]`
(line 886). -/
def isYtAnchorElem (tag : String) (attrs : List (String × String)) : Bool :=
  tag == "a" &&
    (match getAttr attrs "href" with
     | some href => strContains href "youtube" || strContains href "youtu.be"
     | none => false)

mutual

/-- Pre-order search for a Twitter/X anchor in a node and its subtree. -/
def nodeHasTwAnchor : Node → Bool
  | .text _ => false
  | .elem tag attrs _ _ children =>
    isTwAnchorElem tag attrs || forestHasTwAnchor children

/-- Pre-order search for a Twitter/X anchor in a forest. -/
def forestHasTwAnchor : List Node → Bool
  | [] => false
  | n :: ns => nodeHasTwAnchor n || forestHasTwAnchor ns

end

mutual

/-- Pre-order search for a YouTube anchor in a node and its subtree. -/
def nodeHasYtAnchor : Node → Bool
  | .text _ => false
  | .elem tag attrs _ _ children =>
    isYtAnchorElem tag attrs || forestHasYtAnchor children

/-- Pre-order search for a YouTube anchor in a forest. -/
def forestHasYtAnchor : List Node → Bool
  | [] => false
  | n :: ns => nodeHasYtAnchor n || forestHasYtAnchor ns

end

mutual

/-- Models querySelector(iframe): first iframe in pre-order, the node itself
included. -/
def nodeFindIframe : Node → Option Node
  | .text _ => none
  | .elem tag attrs cls sty children =>
    if tag == "iframe" then some (.elem tag attrs cls sty children)
    else forestFindIframe children

/-- First iframe of a forest in pre-order. -/
def forestFindIframe : List Node → Option Node
  | [] => none
  | n :: ns =>
    match nodeFindIframe n with
    | some m => some m
    | none => forestFindIframe ns

end

/-- Line 921/947: add the `twitter-tweet` class when missing. -/
def addTwitterTweetClass (cls : List String) : List String :=
  if cls.contains "twitter-tweet" then cls else cls ++ ["twitter-tweet"]

/-- Line 924/950. -/
def twBqStyle : String := "margin: 0 auto; max-width: 550px;"

/-- Line 940. -/
def twIframeStyle : String := "max-width: 100%; margin: 0 auto; display: block;"

/-- Line 906. -/
def twWrapperStyle : String := "margin: 2em 0; max-width: 100%;"

/-- Lines 881/894. -/
def ytWrapperStyle : String :=
  "margin: 2em 0; position: relative; padding-bottom: 56.25%; height: 0; overflow: hidden; max-width: 100%; background: #000; border-radius: 8px;"

/-- Lines 882/895. -/
def ytFrameStyle : String :=
  "position: absolute; top: 0; left: 0; width: 100%; height: 100%; border: none;"

/-- Line 898. -/
def ytCenterStyle : String := "margin: 2em 0; text-align: center;"

mutual

/-- Models querySelector(blockquote) combined with the in-place fix of lines
945-951: locate the first blockquote in pre-order and give it the
`twitter-tweet` class and the bounded-width style. Returns the updated node
and whether a blockquote was found. -/
def fixFirstBqNode : Node → Node × Bool
  | .text s => (.text s, false)
  | .elem tag attrs cls sty children =>
    if tag == "blockquote" then
      (.elem tag attrs (addTwitterTweetClass cls) twBqStyle children, true)
    else
      let r := fixFirstBqForest children
      (.elem tag attrs cls sty r.1, r.2)

/-- Forest version of `fixFirstBqNode`; only the first found blockquote is
updated. -/
def fixFirstBqForest : List Node → List Node × Bool
  | [] => ([], false)
  | n :: ns =>
    let r := fixFirstBqNode n
    if r.2 then (r.1 :: ns, true)
    else
      let r2 := fixFirstBqForest ns
      (n :: r2.1, r2.2)

end

/-- List-based `startsWith` (kernel-evaluable). -/
def strStartsWith (s pre : String) : Bool := pre.data.isPrefixOf s.data

/-- Line 929: a tweet id usable for the fallback link — present, truthy, and
not one of the synthetic `hash_`/`iframe_` fallbacks. -/
def nonSyntheticTweetId : Option String → Bool
  | none => false
  | some t => t != "" && !(strStartsWith t "hash_") && !(strStartsWith t "iframe_")

/-- Lines 930-933: the minimal fallback link appended to a quote that lacks
an outbound link. -/
def fallbackTweetLink (t : String) : Node :=
  .elem "a" [("href", "https://twitter.com/x/status/" ++ t)] [] ""
    [.text "View on Twitter"]

/-- Lines 910-955: the body of the child-moving loop of the social-post
branch; `none` means the child is dropped (scripts), otherwise the modified
child is appended to the wrapper. -/
def processTwChild (tweetId : Option String) (n : Node) : Option Node :=
  match n with
  | .text s => some (.text s)
  | .elem tag attrs cls sty children =>
    if tag == "script" then none
    else if tag == "blockquote" then
      let cls2 := addTwitterTweetClass cls
      let children2 :=
        if !(forestHasTwAnchor children) && nonSyntheticTweetId tweetId then
          children ++ [fallbackTweetLink (tweetId.getD "")]
        else children
      some (.elem tag attrs cls2 twBqStyle children2)
    else if tag == "iframe" then
      some (.elem tag attrs cls twIframeStyle children)
    else if tag == "div" then
      some (.elem tag attrs cls sty (fixFirstBqForest children).1)
    else some (.elem tag attrs cls sty children)

/-- Lines 905-956: the social-post wrapper — a div with the
`embed-wrapper embed-twitter` classes and the bounded style, holding every
non-script child of the parsed markup, each processed by
`processTwChild`. -/
def buildTwWrapper (tweetId : Option String) (parsed : List Node) : Node :=
  Node.elem "div" [] ["embed-wrapper", "embed-twitter"] twWrapperStyle
    (parsed.filterMap (processTwChild tweetId))

/-- Lines 870-876/888-893: the iframe created for a synthesized embed. -/
def mkYtFrame (v : String) : Node :=
  .elem "iframe"
    [("src", "https://www.youtube.com/embed/" ++ v), ("frameborder", "0"),
     ("allow", "accelerometer; autoplay; clipboard-write; encrypted-media; gyroscope; picture-in-picture"),
     ("allowfullscreen", "")] [] "" []

/-- Sets the inline style of an element. -/
def setNodeStyle (n : Node) (sty : String) : Node :=
  match n with
  | .text s => .text s
  | .elem tag attrs cls _ children => .elem tag attrs cls sty children

/-- Lines 866-901: the video wrapper — locate or synthesize a single frame
and put it in a fixed-aspect responsive container, else convert a video
anchor, else fall back to a centered clone of the parsed markup. -/
def buildYtWrapper (e : Embed) (parsed : List Node) : Node :=
  let tempChildren :=
    match forestFindIframe parsed with
    | some _ => parsed
    | none =>
      if e.isGenerated then
        match e.videoId with
        | some v => if v != "" then parsed ++ [mkYtFrame v] else parsed
        | none => parsed
      else parsed
  match forestFindIframe tempChildren with
  | some ifr =>
    .elem "div" [] ["embed-wrapper", "embed-youtube"] ytWrapperStyle
      [setNodeStyle ifr ytFrameStyle]
  | none =>
    if forestHasYtAnchor tempChildren then
      match e.videoId with
      | some v =>
        if v != "" then
          .elem "div" [] ["embed-wrapper", "embed-youtube"] ytWrapperStyle
            [setNodeStyle (mkYtFrame v) ytFrameStyle]
        else
          .elem "div" [] ["embed-wrapper", "embed-youtube"] ytCenterStyle
            [.elem "div" [] [] "" tempChildren]
      | none =>
        .elem "div" [] ["embed-wrapper", "embed-youtube"] ytCenterStyle
          [.elem "div" [] [] "" tempChildren]
    else
      .elem "div" [] ["embed-wrapper", "embed-youtube"] ytCenterStyle
        [.elem "div" [] [] "" tempChildren]

/-- Lines 853-960: one wrapper per embed descriptor, by kind. `parse` is the
DOM collaborator turning the captured markup into nodes
(`tempDiv.innerHTML = embed.html`). -/
def buildWrapper (parse : String → List Node) (e : Embed) : Node :=
  match e.type with
  | .youtube => buildYtWrapper e (parse e.html)
  | .twitter => buildTwWrapper e.tweetId (parse e.html)

/-- Lines 839-963: append one wrapper per embed, in detection order, to the
end of the distilled content body. -/
def reconcile (parse : String → List Node) (content : List Node)
    (embeds : List Embed) : List Node :=
  embeds.foldl (fun body e => body ++ [buildWrapper parse e]) content

/-- Whether a node is a script element. -/
def isScriptNode : Node → Bool
  | .text _ => false
  | .elem tag _ _ _ _ => tag == "script"

/-- Children accessor. -/
def nodeChildren : Node → List Node
  | .text _ => []
  | .elem _ _ _ _ ch => ch

/-- Class-list accessor. -/
def nodeClasses : Node → List String
  | .text _ => []
  | .elem _ _ cls _ _ => cls

/-- Inline-style accessor. -/
def nodeStyle : Node → String
  | .text _ => ""
  | .elem _ _ _ sty _ => sty

/-- C5: reconciling with an empty embed list returns the distilled content
unchanged — no embed-wrapper elements are appended. -/
theorem reconcile_empty_identity (parse : String → List Node)
    (content : List Node) :
    reconcile parse content [] = content ∧
    (reconcile parse content []).length = content.length :=
  ⟨rfl, rfl⟩

/-- A script child is dropped by the social-post child loop. -/
theorem processTwChild_script (t : Option String) (n : Node)
    (h : isScriptNode n = true) : processTwChild t n = none := by
  cases n with
  | text s => exact absurd h (by simp [isScriptNode])
  | elem tag attrs cls sty ch =>
    simp only [isScriptNode] at h
    simp [processTwChild, h]

/-- A non-script child is kept (in possibly modified form). -/
theorem processTwChild_nonscript (t : Option String) (n : Node)
    (h : isScriptNode n = false) : ∃ m, processTwChild t n = some m := by
  cases n with
  | text s => exact ⟨.text s, rfl⟩
  | elem tag attrs cls sty ch =>
    simp only [isScriptNode] at h
    simp only [processTwChild, h, Bool.false_eq_true, if_false]
    repeat' split
    all_goals exact ⟨_, rfl⟩

/-- The wrapper holds exactly one child per non-script child of the
markup. -/
theorem twWrapper_children_length (t : Option String) (cs : List Node) :
    (cs.filterMap (processTwChild t)).length =
      (cs.filter (fun n => !(isScriptNode n))).length := by
  induction cs with
  | nil => rfl
  | cons n ns ih =>
    cases hs : isScriptNode n with
    | true =>
      rw [List.filterMap_cons, processTwChild_script t n hs, List.filter_cons]
      simp [hs, ih]
    | false =>
      obtain ⟨m, hm⟩ := processTwChild_nonscript t n hs
      rw [List.filterMap_cons, hm, List.filter_cons]
      simp [hs, ih]

/-- The marker class is present after `addTwitterTweetClass`. -/
theorem mem_addTwitterTweetClass (cls : List String) :
    "twitter-tweet" ∈ addTwitterTweetClass cls := by
  unfold addTwitterTweetClass
  split
  · rename_i h
    simpa [List.contains, List.elem_iff] using h
  · exact List.mem_append.mpr (Or.inr (List.mem_singleton.mpr rfl))

/-- C8: for every social-post descriptor, the wrapper carries the
`embed-wrapper embed-twitter` classes and bounded width style and holds the
processed children of the captured markup: every script child is dropped,
every non-script child is moved in (one output child per non-script child,
order preserved by `filterMap`); every direct blockquote child ends up with
the `twitter-tweet` marker class and the bounded width style, and receives
the minimal fallback link exactly when it lacks an outbound twitter/x link
and the descriptor id is non-synthetic. -/
theorem social_post_reconciliation (t : Option String) (cs : List Node) :
    nodeChildren (buildTwWrapper t cs) = cs.filterMap (processTwChild t) ∧
    nodeClasses (buildTwWrapper t cs) = ["embed-wrapper", "embed-twitter"] ∧
    nodeStyle (buildTwWrapper t cs) = twWrapperStyle ∧
    (∀ n ∈ cs, isScriptNode n = true → processTwChild t n = none) ∧
    (∀ n ∈ cs, isScriptNode n = false → ∃ m, processTwChild t n = some m) ∧
    (nodeChildren (buildTwWrapper t cs)).length =
      (cs.filter (fun n => !(isScriptNode n))).length ∧
    (∀ attrs cls sty ch, Node.elem "blockquote" attrs cls sty ch ∈ cs →
      processTwChild t (Node.elem "blockquote" attrs cls sty ch) =
        some (Node.elem "blockquote" attrs (addTwitterTweetClass cls) twBqStyle
          (if !(forestHasTwAnchor ch) && nonSyntheticTweetId t then
             ch ++ [fallbackTweetLink (t.getD "")]
           else ch)) ∧
      "twitter-tweet" ∈ addTwitterTweetClass cls) := by
  refine ⟨rfl, rfl, rfl, ?_, ?_, twWrapper_children_length t cs, ?_⟩
  · intro n _ h; exact processTwChild_script t n h
  · intro n _ h; exact processTwChild_nonscript t n h
  · intro attrs cls sty ch _
    exact ⟨rfl, mem_addTwitterTweetClass cls⟩

/-- Markup children used by the witness below: a widget-loader script and a
quote lacking an outbound link. -/
def twWitnessChildren : List Node :=
  [Node.elem "script" [("src", "https://platform.twitter.com/widgets.js")] [] "" [],
   Node.elem "blockquote" [] [] "" [Node.text "Hello"]]

/-- Witness for `social_post_reconciliation` at concrete markup with a
non-synthetic tweet id. -/
theorem social_post_reconciliation_witness :
    isScriptNode
      (Node.elem "script" [("src", "https://platform.twitter.com/widgets.js")] [] "" [])
      = true ∧
    processTwChild (some "123")
      (Node.elem "script" [("src", "https://platform.twitter.com/widgets.js")] [] "" [])
      = none ∧
    nodeClasses (buildTwWrapper (some "123") twWitnessChildren) =
      ["embed-wrapper", "embed-twitter"] ∧
    processTwChild (some "123") (Node.elem "blockquote" [] [] "" [Node.text "Hello"]) =
      some (Node.elem "blockquote" [] (addTwitterTweetClass []) twBqStyle
        (if !(forestHasTwAnchor [Node.text "Hello"]) && nonSyntheticTweetId (some "123") then
           [Node.text "Hello"] ++ [fallbackTweetLink ((some "123").getD "")]
         else [Node.text "Hello"])) := by
  refine ⟨rfl, ?_, ?_, ?_⟩
  · exact (social_post_reconciliation (some "123") twWitnessChildren).2.2.2.1
      (Node.elem "script" [("src", "https://platform.twitter.com/widgets.js")] [] "" [])
      (List.mem_cons_self _ _) rfl
  · exact (social_post_reconciliation (some "123") twWitnessChildren).2.1
  · exact ((social_post_reconciliation (some "123") twWitnessChildren).2.2.2.2.2.2
      [] [] "" [Node.text "Hello"]
      (List.mem_cons_of_mem _ (List.mem_cons_self _ _))).1

end ArticleParse
